import Mathlib

/-!
Shallow embedding of the scoring and aggregation pipeline of the
GitHub-Profile-Analyzer repository (`src/analyzer.py`, `src/scoring.py`),
together with theorems settling the specification's claims about it.

Conventions:
* Python `int` is modelled as `ℤ`; Python `float` arithmetic on scores is
  modelled as `ℚ`, with Python `int(...)` truncation modelled by `pyTrunc`.
* A repository working tree (the filesystem snapshot produced by a clone) is
  modelled by the mutual types `FSTree`/`FSForest`; `os.walk` is modelled by
  `walkTree`/`walkForest`, which produce the top-down list of
  `(root, dirs, files)` entries exactly as `os.walk` yields them.
* Optional values (`repo.language`, `repo.description`, which are `None` in
  Python when absent) are `Option String`; Python truthiness of such a value
  is `pyTruthy`.
-/

/-- Python's `str.lower` on the characters of a string. -/
def lowerStr (s : String) : List Char := s.toList.map Char.toLower

/-- Python's substring test `needle in haystack` on character lists. -/
def containsSub (needle : List Char) : List Char → Bool
  | [] => needle.isEmpty
  | c :: t => needle.isPrefixOf (c :: t) || containsSub needle t

/-- Python `int(...)` on a float/rational: truncation toward zero. -/
def pyTrunc (q : ℚ) : ℤ := if 0 ≤ q then ⌊q⌋ else ⌈q⌉

/-- Python truthiness of an optional string (`None` and `""` are falsy). -/
def pyTruthy : Option String → Bool
  | none => false
  | some s => !(s == "")

/- ## Filesystem snapshot model and `os.walk` -/

mutual
/-- One directory of a repository working tree: its file names and its
    subdirectories. -/
inductive FSTree : Type where
  | mk (files : List String) (dirs : FSForest) : FSTree

/-- The ordered list of named subdirectories of a directory. -/
inductive FSForest : Type where
  | nil : FSForest
  | cons (name : String) (tree : FSTree) (rest : FSForest) : FSForest
end

/-- One `(root, dirs, files)` triple yielded by `os.walk`. -/
structure WalkEntry where
  root : String
  dirs : List String
  files : List String
  deriving DecidableEq

/-- The names of the subdirectories of a forest, in order. -/
def FSForest.names : FSForest → List String
  | .nil => []
  | .cons n _ rest => n :: rest.names

mutual
/-- `os.walk` (top-down) over a tree rooted at path `p`. -/
def walkTree (p : String) : FSTree → List WalkEntry
  | .mk files dirs => ⟨p, dirs.names, files⟩ :: walkForest p dirs

/-- `os.walk` continued over the subdirectories of a directory at path `p`. -/
def walkForest (p : String) : FSForest → List WalkEntry
  | .nil => []
  | .cons n t rest => walkTree (p ++ "/" ++ n) t ++ walkForest p rest
end

/- ## `_analyze_testing` (analyzer.py lines 221-242) -/

/-- `test_dirs = ["tests", "test", "__tests__", "spec"]`. -/
def test_dirs : List String := ["tests", "test", "__tests__", "spec"]

/-- `config_files` of `_analyze_testing`. -/
def config_files : List String :=
  [".travis.yml", ".circleci", "Jenkinsfile", ".github/workflows",
   "pytest.ini", "jest.config.js"]

/-- `any(d in test_dirs for d in dirs)` at one walk entry. -/
def entryDirHit (e : WalkEntry) : Bool :=
  e.dirs.any (fun d => test_dirs.contains d)

/-- `any("test" in f.lower() for f in files)` at one walk entry. -/
def entryFileHit (e : WalkEntry) : Bool :=
  e.files.any (fun f => containsSub "test".toList (lowerStr f))

/-- First loop of `_analyze_testing`: walk the tree, `+40` and stop at the
    first entry with a test directory, else `+20` and stop at the first entry
    with a file whose name contains "test". -/
def testWalkScore : List WalkEntry → ℤ
  | [] => 0
  | e :: rest =>
    if entryDirHit e then 40
    else if entryFileHit e then 20
    else testWalkScore rest

/-- `f in config_files or ".github" in root` for one file of one entry. -/
def entryCIHit (e : WalkEntry) : Bool :=
  e.files.any (fun f => config_files.contains f ||
    containsSub ".github".toList e.root.toList)

/-- Second loop of `_analyze_testing`: `+40` and return at the first walk
    entry holding a file that is a CI config file (or whose root path
    contains ".github"). -/
def ciWalkScore : List WalkEntry → ℤ
  | [] => 0
  | e :: rest => if entryCIHit e then 40 else ciWalkScore rest

/-- `_analyze_testing`: the testing_ci sub-score of the tree rooted at
    path `p`. -/
def analyze_testing (p : String) (t : FSTree) : ℤ :=
  min 100 (testWalkScore (walkTree p t) + ciWalkScore (walkTree p t))

/- ## `_analyze_complexity_python` (analyzer.py lines 244-268) -/

/-- `_analyze_complexity_python`, as a function of the list of per-function
    cyclomatic complexities that `radon`'s `cc_visit` reports across all
    `.py` files (in the source, `total_cc` sums them and `file_count` counts
    them). Empty list = no functions found (or an analysis error): default
    50. Otherwise `int(max(0, 100 - (avg_cc - 5) * (100/15)))`. -/
def analyze_complexity_python (ccs : List ℕ) : ℤ :=
  if ccs.length = 0 then 50
  else
    let avg_cc : ℚ := (ccs.sum : ℚ) / (ccs.length : ℚ)
    pyTrunc (max 0 (100 - (avg_cc - 5) * (100 / 15)))

/- ## `_calculate_composite` (analyzer.py lines 289-301) -/

/-- The seven-field score breakdown dictionary of one repository. -/
structure ScoreBreakdown where
  code_structure : ℤ
  testing_ci : ℤ
  readme : ℤ
  project_value : ℤ
  deployability : ℤ
  complexity : ℤ
  security : ℤ

/-- `_calculate_composite`: weighted sum of the breakdown fields, truncated
    to an integer by Python's `int(...)`. -/
def calculate_composite (b : ScoreBreakdown) : ℤ :=
  pyTrunc ((b.code_structure : ℚ) * (25 / 100) +
    (b.testing_ci : ℚ) * (20 / 100) +
    (b.readme : ℚ) * (15 / 100) +
    (b.project_value : ℚ) * (15 / 100) +
    (b.deployability : ℚ) * (10 / 100) +
    (b.complexity : ℚ) * (8 / 100) +
    (b.security : ℚ) * (7 / 100))

/- ## `analyze_repo` (analyzer.py lines 73-160), clone-failure path

The claims touch the clone-failure path of `analyze_repo` (lines 101-108 and
152-154) and the fields of the analysis dictionary that `scoring.py` reads:
`language`, `stars`, `forks`, `description`, `composite_score`,
`score_breakdown`, `critical_flags`.  The README/structure/security-deploy
sub-analyses only run on a successful clone and are not referenced by any
claim, so they are not embedded. -/

/-- The analysis dictionary of one repository, restricted to the fields the
    scoring pipeline reads. -/
structure RepoAnalysis where
  language : Option String
  stars : ℕ
  forks : ℕ
  description : Option String
  composite_score : ℤ
  score_breakdown : ScoreBreakdown
  strengths : List String
  weaknesses : List String
  critical_flags : List String

/-- `analyze_repo` when `clone_repo` fails: `project_value` was already set
    from stars/forks before the clone attempt (line 105-106); every other
    breakdown field keeps its initial 0; the critical flag is appended; the
    composite score is still computed from the breakdown. -/
def analyze_repo_clone_failed (language description : Option String)
    (stars forks : ℕ) : RepoAnalysis :=
  let project_value : ℤ := min 100 ((stars : ℤ) * 2 + (forks : ℤ) * 5)
  let breakdown : ScoreBreakdown :=
    { code_structure := 0, testing_ci := 0, readme := 0,
      project_value := project_value, deployability := 0,
      complexity := 0, security := 0 }
  { language := language, stars := stars, forks := forks,
    description := description,
    composite_score := calculate_composite breakdown,
    score_breakdown := breakdown,
    strengths :=
      if project_value > 50 then ["High community interest (stars/forks)"] else [],
    weaknesses := [],
    critical_flags := ["Clone failed - manual inspection required"] }

/- ## `scoring.py` -/

/-- `load_languages`: the distinct truthy languages of the repositories
    (a Python `set` built from them, materialised as a deduplicated list;
    only its size is consumed). -/
def load_languages (repos : List RepoAnalysis) : List String :=
  (repos.filterMap (fun r => if pyTruthy r.language then r.language else none)).dedup

/-- `get_tier_label` (scoring.py lines 132-140). -/
def get_tier_label (tier : String) : String :=
  if tier = "🏆 Hire-Ready" then "Strong candidate; portfolio speaks for itself"
  else if tier = "✅ Competitive" then "Solid candidate; minor gaps to address"
  else if tier = "📈 Developing" then "Promising; needs focused improvement in 2-3 areas"
  else if tier = "⚠️ Early Stage" then "Real potential; portfolio needs significant work"
  else if tier = "🔴 Not Ready" then "Foundational gaps; focus on fundamentals first"
  else ""

/-- The `security_baseline` computation of `compute_hiring_readiness`
    (scoring.py lines 41-47): start at 100, deduct 20 for every repository
    whose `critical_flags` list is truthy (non-empty), floor at 0. -/
def security_baseline (repos : List RepoAnalysis) : ℤ :=
  max 0 (repos.foldl
    (fun acc r => if !r.critical_flags.isEmpty then acc - 20 else acc) 100)

/-- The result dictionary of `compute_hiring_readiness`. -/
structure HiringReadiness where
  score : ℤ
  tier : String
  tier_label : String

/-- `compute_hiring_readiness` (scoring.py lines 2-73). -/
def compute_hiring_readiness (repos : List RepoAnalysis) : HiringReadiness :=
  if repos.isEmpty then
    { score := 0, tier := "🔴 Not Ready",
      tier_label := "Foundational gaps; focus on fundamentals first" }
  else
    let repo_scores : List ℤ := repos.map (·.composite_score)
    let avg_repo_score : ℚ :=
      if !repo_scores.isEmpty then (repo_scores.sum : ℚ) / (repo_scores.length : ℚ) else 0
    let best_3 : List ℤ := (repo_scores.mergeSort (fun a b => decide (b ≤ a))).take 3
    let best_3_repos_avg : ℚ :=
      if !best_3.isEmpty then (best_3.sum : ℚ) / (best_3.length : ℚ) else 0
    let portfolio_diversity : ℤ := min 100 ((load_languages repos).length * 20)
    let testing_ci_presence : ℚ :=
      ((repos.countP (fun r => decide (0 < r.score_breakdown.testing_ci)) : ℚ) /
        (repos.length : ℚ)) * 100
    let deployability_presence : ℚ :=
      ((repos.countP (fun r => decide (0 < r.score_breakdown.deployability)) : ℚ) /
        (repos.length : ℚ)) * 100
    let score : ℚ :=
      avg_repo_score * (35 / 100) +
      best_3_repos_avg * (25 / 100) +
      (portfolio_diversity : ℚ) * (15 / 100) +
      testing_ci_presence * (10 / 100) +
      deployability_presence * (10 / 100) +
      (security_baseline repos : ℚ) * (5 / 100)
    let final_score : ℤ := pyTrunc score
    let tier : String :=
      if final_score ≥ 85 then "🏆 Hire-Ready"
      else if final_score ≥ 70 then "✅ Competitive"
      else if final_score ≥ 55 then "📈 Developing"
      else if final_score ≥ 40 then "⚠️ Early Stage"
      else "🔴 Not Ready"
    { score := final_score, tier := tier, tier_label := get_tier_label tier }

/- ## `compute_role_fit` (scoring.py lines 75-130)

`r["description"]` may be Python `None`; calling `.lower()` on it would raise
an `AttributeError`.  The description access is therefore embedded as a
fallible operation (`Except`), so that totality of the role-fit computation
is a theorem rather than a modelling assumption.  The keyword test
`any(k in r["description"].lower() for k in kws if r["description"])` filters
each yielded element on the truthiness of the description, so `.lower()` is
only reached when the description is truthy. -/

/-- `.lower()` on an optional string: raises on `None`. -/
def pyLowerOpt : Option String → Except String (List Char)
  | none => Except.error "AttributeError: NoneType object has no attribute lower"
  | some s => Except.ok (lowerStr s)

/-- `any(k in desc.lower() for k in kws if desc)`: the generator yields
    nothing when the description is falsy, so `any` is `False` and `.lower()`
    is never evaluated; otherwise each keyword is tested as a substring of
    the lowercased description. -/
def keyword_hit (kws : List String) (desc : Option String) :
    Except String Bool :=
  if pyTruthy desc then do
    let d ← pyLowerOpt desc
    pure (kws.any (fun k => containsSub k.toList d))
  else pure false

/-- `ml_keywords` (scoring.py line 93). -/
def ml_keywords : List String :=
  ["model", "train", "dataset", "jupyter", "pandas", "numpy", "sklearn",
   "tensorflow", "pytorch"]

/-- `be_keywords` (scoring.py line 104). -/
def be_keywords : List String :=
  ["api", "server", "database", "sql", "rest", "graphql", "docker", "auth"]

/-- `sre_keywords` (scoring.py line 116). -/
def sre_keywords : List String :=
  ["kubernetes", "docker", "terraform", "ansible", "cloud", "aws", "gcp",
   "azure", "monitor", "prometheus"]

/-- The backend language list of scoring.py line 107. -/
def backend_langs : List String :=
  ["Python", "Go", "Java", "JavaScript", "TypeScript", "Rust"]

/-- Python `lang in langs` for an optional language (`None` is in no list). -/
def lang_in (lang : Option String) (langs : List String) : Bool :=
  match lang with
  | none => false
  | some l => langs.contains l

/-- One repository's contribution to `ml_score` (scoring.py lines 95-99). -/
def ml_contrib (r : RepoAnalysis) : Except String ℤ := do
  let kw ← keyword_hit ml_keywords r.description
  pure ((if r.language == some "Jupyter Notebook" || r.language == some "Python"
          then 10 else 0) +
        (if kw then 15 else 0))

/-- One repository's contribution to `be_score` (scoring.py lines 106-111):
    the `code_structure / 10` bonus is Python true division, hence `ℚ`. -/
def be_contrib (r : RepoAnalysis) : Except String ℚ := do
  let kw ← keyword_hit be_keywords r.description
  pure ((if lang_in r.language backend_langs then 10 else 0) +
        (if kw then 15 else 0) +
        (r.score_breakdown.code_structure : ℚ) / 10)

/-- One repository's contribution to `sre_score` (scoring.py lines 118-121). -/
def sre_contrib (r : RepoAnalysis) : Except String ℚ := do
  let kw ← keyword_hit sre_keywords r.description
  pure ((if kw then 20 else 0) +
        (r.score_breakdown.deployability : ℚ) / 2)

/-- One role's entry in the `roles` dictionary. -/
structure RoleScore where
  score : ℤ
  fit_label : String
  deriving DecidableEq

/-- The `roles` dictionary of `compute_role_fit`. -/
structure RoleScores where
  ml_engineer : RoleScore
  backend_engineer : RoleScore
  sre : RoleScore
  deriving DecidableEq

/-- `get_fit_label` (scoring.py lines 127-130). -/
def get_fit_label (score : ℤ) : String :=
  if score > 80 then "High Fit"
  else if score > 50 then "Moderate Fit"
  else "Low Fit"

/-- `compute_role_fit` (scoring.py lines 75-125).  The `roles` dictionary is
    initialised with score 0 and an empty `fit_label`; on the empty-list
    early return (line 90) it is returned unchanged, labels still empty.
    Otherwise each role's score accumulates over the repositories in order,
    is clamped (`min(100, ...)`, with `int(...)` truncation for backend and
    SRE), and its label is filled in by `get_fit_label`. -/
def compute_role_fit (repos : List RepoAnalysis) :
    Except String RoleScores :=
  if repos.isEmpty then
    Except.ok ⟨⟨0, ""⟩, ⟨0, ""⟩, ⟨0, ""⟩⟩
  else do
    let ml_score ← repos.foldlM (fun acc r => do
      pure (acc + (← ml_contrib r))) (0 : ℤ)
    let ml : RoleScore := ⟨min 100 ml_score, get_fit_label (min 100 ml_score)⟩
    let be_score ← repos.foldlM (fun acc r => do
      pure (acc + (← be_contrib r))) (0 : ℚ)
    let be : RoleScore :=
      ⟨min 100 (pyTrunc be_score), get_fit_label (min 100 (pyTrunc be_score))⟩
    let sre_score ← repos.foldlM (fun acc r => do
      pure (acc + (← sre_contrib r))) (0 : ℚ)
    let sre : RoleScore :=
      ⟨min 100 (pyTrunc sre_score), get_fit_label (min 100 (pyTrunc sre_score))⟩
    pure ⟨ml, be, sre⟩

/- ## Auxiliary notions for the claims about `_analyze_testing` -/

/-- The tree rooted at `p` carries no test signal at all: no walk entry has a
    subdirectory named in `test_dirs`, and no walk entry has a file whose
    lowercased name contains "test". -/
def noTestSignals (p : String) (t : FSTree) : Bool :=
  (walkTree p t).all (fun e => !entryDirHit e && !entryFileHit e)

mutual
/-- `AddTestsDirF f f'`: the forest `f'` is the forest `f` with one new
    subdirectory named "tests" (with arbitrary contents `u`) grafted at some
    position of some member directory, or at the front of the forest itself. -/
inductive AddTestsDirF : FSForest → FSForest → Prop where
  | insert (u : FSTree) (f : FSForest) : AddTestsDirF f (.cons "tests" u f)
  | within {t t'} (n : String) (rest : FSForest) :
      AddTestsDirT t t' → AddTestsDirF (.cons n t rest) (.cons n t' rest)
  | skip {rest rest'} (n : String) (t : FSTree) :
      AddTestsDirF rest rest' → AddTestsDirF (.cons n t rest) (.cons n t rest')

/-- `AddTestsDirT t t'`: the tree `t'` is the tree `t` with one new
    subdirectory named "tests" grafted somewhere. -/
inductive AddTestsDirT : FSTree → FSTree → Prop where
  | mk {dirs dirs'} (files : List String) :
      AddTestsDirF dirs dirs' → AddTestsDirT (.mk files dirs) (.mk files dirs')
end

/-- A repository analysis with all-zero scores and a given critical-flag
    list; used to instantiate claims about `scoring.py` aggregation. -/
def flaggedRepo (flags : List String) : RepoAnalysis :=
  { language := none, stars := 0, forks := 0, description := none,
    composite_score := 0, score_breakdown := ⟨0, 0, 0, 0, 0, 0, 0⟩,
    strengths := [], weaknesses := [], critical_flags := flags }

/-- A Python repository analysis with a missing (`None`) description. -/
def descNoneRepo : RepoAnalysis :=
  { language := some "Python", stars := 0, forks := 0, description := none,
    composite_score := 0, score_breakdown := ⟨0, 0, 0, 0, 0, 0, 0⟩,
    strengths := [], weaknesses := [], critical_flags := [] }

/- ## Helper lemmas about the `_analyze_testing` walks -/

theorem testWalkScore_cases (l : List WalkEntry) :
    testWalkScore l = 0 ∨ testWalkScore l = 20 ∨ testWalkScore l = 40 := by
  induction l with
  | nil => left; rfl
  | cons e rest ih =>
    by_cases h1 : entryDirHit e
    · right; right; simp [testWalkScore, h1]
    · by_cases h2 : entryFileHit e
      · right; left; simp [testWalkScore, h1, h2]
      · simpa [testWalkScore, h1, h2] using ih

theorem testWalkScore_nonneg (l : List WalkEntry) : 0 ≤ testWalkScore l := by
  rcases testWalkScore_cases l with h | h | h <;> omega

theorem ciWalkScore_eq_any (l : List WalkEntry) :
    ciWalkScore l = if l.any entryCIHit then 40 else 0 := by
  induction l with
  | nil => rfl
  | cons e rest ih =>
    by_cases h : entryCIHit e
    · simp [ciWalkScore, h]
    · simpa [ciWalkScore, h] using ih

theorem testWalkScore_of_no_signal (l : List WalkEntry)
    (h : l.all (fun e => !entryDirHit e && !entryFileHit e) = true) :
    testWalkScore l = 0 := by
  induction l with
  | nil => rfl
  | cons e rest ih =>
    rw [List.all_cons, Bool.and_eq_true, Bool.and_eq_true] at h
    obtain ⟨⟨h1, h2⟩, h3⟩ := h
    rw [Bool.not_eq_true'] at h1 h2
    simpa [testWalkScore, h1, h2] using ih h3

mutual
/-- Grafting a "tests" directory anywhere in a tree preserves every CI hit
    the second `_analyze_testing` walk had found. -/
theorem ciAny_mono_tree {t t' : FSTree} (p : String) (h : AddTestsDirT t t')
    (hh : (walkTree p t).any entryCIHit = true) :
    (walkTree p t').any entryCIHit = true := by
  cases h with
  | mk files hf =>
    simp only [walkTree, List.any_cons] at hh ⊢
    rcases Bool.or_eq_true_iff.mp hh with h1 | h2
    · exact Bool.or_eq_true_iff.mpr (Or.inl h1)
    · exact Bool.or_eq_true_iff.mpr (Or.inr (ciAny_mono_forest p hf h2))

/-- Forest version of `ciAny_mono_tree`. -/
theorem ciAny_mono_forest {f f' : FSForest} (p : String) (h : AddTestsDirF f f')
    (hh : (walkForest p f).any entryCIHit = true) :
    (walkForest p f').any entryCIHit = true := by
  cases h with
  | insert u g =>
    simp only [walkForest, List.any_append]
    exact Bool.or_eq_true_iff.mpr (Or.inr hh)
  | within n rest ht =>
    simp only [walkForest, List.any_append] at hh ⊢
    rcases Bool.or_eq_true_iff.mp hh with h1 | h2
    · exact Bool.or_eq_true_iff.mpr (Or.inl (ciAny_mono_tree _ ht h1))
    · exact Bool.or_eq_true_iff.mpr (Or.inr h2)
  | skip n t hf =>
    simp only [walkForest, List.any_append] at hh ⊢
    rcases Bool.or_eq_true_iff.mp hh with h1 | h2
    · exact Bool.or_eq_true_iff.mpr (Or.inl h1)
    · exact Bool.or_eq_true_iff.mpr (Or.inr (ciAny_mono_forest p hf h2))
end

/-- C4 (counterexample): a snapshot whose root holds a file named
    "test_a.py" (20 from the filename fallback of the first walk) and a file
    ".travis.yml" (40 from the CI-config walk) gets testing_ci score 60,
    which is none of the four values 0, 20, 40, 80 the claim allows. -/
theorem C4_counterexample_score_60 :
    analyze_testing "repo" (FSTree.mk ["test_a.py", ".travis.yml"] .nil) = 60 ∧
    ¬(analyze_testing "repo" (FSTree.mk ["test_a.py", ".travis.yml"] .nil) = 0 ∨
      analyze_testing "repo" (FSTree.mk ["test_a.py", ".travis.yml"] .nil) = 20 ∨
      analyze_testing "repo" (FSTree.mk ["test_a.py", ".travis.yml"] .nil) = 40 ∨
      analyze_testing "repo" (FSTree.mk ["test_a.py", ".travis.yml"] .nil) = 80) := by
  constructor <;> decide

/-- C4 (amended): for every filesystem snapshot the testing_ci sub-score
    returned by `_analyze_testing` is one of exactly the five values
    0, 20, 40, 60, or 80. -/
theorem C4_testing_ci_value_set (p : String) (t : FSTree) :
    analyze_testing p t = 0 ∨ analyze_testing p t = 20 ∨
    analyze_testing p t = 40 ∨ analyze_testing p t = 60 ∨
    analyze_testing p t = 80 := by
  unfold analyze_testing
  rw [ciWalkScore_eq_any]
  rcases testWalkScore_cases (walkTree p t) with h1 | h1 | h1 <;>
    by_cases h2 : (walkTree p t).any entryCIHit <;>
      simp [h1, h2]

/-- C9: `_analyze_testing` is monotonic in the presence of a tests
    directory: grafting a directory named "tests" anywhere into a snapshot
    that carries no test signal never decreases the testing_ci score. -/
theorem C9_add_tests_dir_monotone (p : String) {t t' : FSTree}
    (hclean : noTestSignals p t = true) (hadd : AddTestsDirT t t') :
    analyze_testing p t ≤ analyze_testing p t' := by
  unfold analyze_testing
  have h0 : testWalkScore (walkTree p t) = 0 :=
    testWalkScore_of_no_signal _ (by simpa [noTestSignals] using hclean)
  have h0' : 0 ≤ testWalkScore (walkTree p t') := testWalkScore_nonneg _
  rw [h0, ciWalkScore_eq_any, ciWalkScore_eq_any]
  by_cases hci : (walkTree p t).any entryCIHit
  · rw [if_pos hci, if_pos (ciAny_mono_tree p hadd hci)]
    omega
  · rw [if_neg hci]
    by_cases hci' : (walkTree p t').any entryCIHit <;>
      simp only [if_pos, if_neg, hci', if_true, if_false] <;> omega

/-- C9 (witness): a one-file test-free snapshot, with an empty "tests"
    directory added at the root. -/
theorem C9_witness :
    noTestSignals "repo" (FSTree.mk ["readme.md"] .nil) = true ∧
    analyze_testing "repo" (FSTree.mk ["readme.md"] .nil) ≤
      analyze_testing "repo"
        (FSTree.mk ["readme.md"] (.cons "tests" (FSTree.mk [] .nil) .nil)) :=
  ⟨by decide, C9_add_tests_dir_monotone "repo" (by decide)
    (AddTestsDirT.mk ["readme.md"] (AddTestsDirF.insert (FSTree.mk [] .nil) .nil))⟩

/- ## Claims about `_analyze_complexity_python` -/

theorem floor_of_intCast_div (n : ℤ) (d : ℕ) (q : ℚ) (hq : q = (n : ℚ) / (d : ℚ)) :
    ⌊q⌋ = n / (d : ℤ) := by
  rw [hq, Rat.floor_intCast_div_natCast]

/-- C1: the clamp-to-[0,100] invariant fails on the complexity sub-score.
    A Python repository whose only function has cyclomatic complexity 1
    (avg_cc = 1) gets `int(max(0, 100 - (1 - 5) * (100/15))) = 126`, which
    `analyze_repo` stores unmodified as the breakdown's complexity field
    (analyzer.py line 143); the missing upper clamp contradicts the code's
    own comment "Score 100 if avg_cc <= 5". -/
theorem C1_complexity_above_100 :
    analyze_complexity_python [1] = 126 ∧
    ¬analyze_complexity_python [1] ≤ 100 := by
  have h : analyze_complexity_python [1] = 126 := by
    simp only [analyze_complexity_python, List.length_cons, List.length_nil,
      List.sum_cons, List.sum_nil]
    rw [if_neg (by norm_num)]
    rw [pyTrunc, if_pos (by positivity)]
    rw [show max (0 : ℚ) (100 - (((1 : ℕ) + 0 : ℕ) / ((0 : ℕ) + 1 : ℕ) - 5) * (100 / 15)) =
        (380 : ℚ) / 3 from by rw [max_eq_right (by norm_num)]; norm_num]
    rw [floor_of_intCast_div 380 3 _ (by norm_num)]
    decide
  exact ⟨h, by omega⟩

/-- C3: the claimed mapping "avg_cc ≤ 5 yields 100" fails: functions with
    complexities [1, 3] give avg_cc = 2 ≤ 5, yet the code returns
    `int(max(0, 100 - (2 - 5) * (100/15))) = 120`, not 100 (the formula has
    no upper clamp, contradicting the code comment "Score 100 if
    avg_cc <= 5"). -/
theorem C3_avg_cc_2_gives_120 :
    analyze_complexity_python [1, 3] = 120 ∧
    analyze_complexity_python [1, 3] ≠ 100 := by
  have h : analyze_complexity_python [1, 3] = 120 := by
    simp only [analyze_complexity_python, List.length_cons, List.length_nil,
      List.sum_cons, List.sum_nil]
    rw [if_neg (by norm_num)]
    rw [pyTrunc, if_pos (by positivity)]
    rw [show max (0 : ℚ) (100 - ((((1 : ℕ) + ((3 : ℕ) + 0 : ℕ) : ℕ)) / ((0 : ℕ) + 1 + 1 : ℕ) - 5) * (100 / 15)) =
        (120 : ℚ) from by rw [max_eq_right (by norm_num)]; norm_num]
    rw [show (120 : ℚ) = ((120 : ℤ) : ℚ) from by norm_num, Int.floor_intCast]
  exact ⟨h, by omega⟩

/- ## Claims about `_calculate_composite` -/

/-- C6: the composite score is the weights-(.25,.20,.15,.15,.10,.08,.07)
    weighted sum of the seven breakdown fields truncated (floored, for
    non-negative fields) to an integer — equivalently, integer division of
    the integer combination by 100. -/
theorem C6_composite_weighted_truncation (b : ScoreBreakdown)
    (h1 : 0 ≤ b.code_structure) (h2 : 0 ≤ b.testing_ci) (h3 : 0 ≤ b.readme)
    (h4 : 0 ≤ b.project_value) (h5 : 0 ≤ b.deployability)
    (h6 : 0 ≤ b.complexity) (h7 : 0 ≤ b.security) :
    calculate_composite b =
      (25 * b.code_structure + 20 * b.testing_ci + 15 * b.readme +
       15 * b.project_value + 10 * b.deployability + 8 * b.complexity +
       7 * b.security) / 100 := by
  have hn : (0 : ℤ) ≤ 25 * b.code_structure + 20 * b.testing_ci + 15 * b.readme +
      15 * b.project_value + 10 * b.deployability + 8 * b.complexity +
      7 * b.security := by omega
  have hsum : (b.code_structure : ℚ) * (25 / 100) + (b.testing_ci : ℚ) * (20 / 100) +
      (b.readme : ℚ) * (15 / 100) + (b.project_value : ℚ) * (15 / 100) +
      (b.deployability : ℚ) * (10 / 100) + (b.complexity : ℚ) * (8 / 100) +
      (b.security : ℚ) * (7 / 100) =
      ((25 * b.code_structure + 20 * b.testing_ci + 15 * b.readme +
        15 * b.project_value + 10 * b.deployability + 8 * b.complexity +
        7 * b.security : ℤ) : ℚ) / ((100 : ℕ) : ℚ) := by
    push_cast
    ring
  rw [calculate_composite, pyTrunc, hsum,
    if_pos (div_nonneg (by exact_mod_cast hn) (by norm_num)),
    Rat.floor_intCast_div_natCast]
  norm_num

/-- C6 (witness): the spec's worked example: breakdown (80,100,60,40,20,50,80)
    in field order (code_structure, testing_ci, readme, project_value,
    deployability, complexity, security) has composite score 66. -/
theorem C6_witness :
    (0 : ℤ) ≤ 80 ∧ (0 : ℤ) ≤ 100 ∧ (0 : ℤ) ≤ 60 ∧ (0 : ℤ) ≤ 40 ∧
    (0 : ℤ) ≤ 20 ∧ (0 : ℤ) ≤ 50 ∧
    calculate_composite ⟨80, 100, 60, 40, 20, 50, 80⟩ = 66 := by
  refine ⟨by decide, by decide, by decide, by decide, by decide, by decide, ?_⟩
  rw [C6_composite_weighted_truncation ⟨80, 100, 60, 40, 20, 50, 80⟩
    (by decide) (by decide) (by decide) (by decide) (by decide) (by decide)
    (by decide)]
  decide

/- ## Claims about the clone-failure path of `analyze_repo` -/

/-- C2 (counterexample): for a repository with 1 star and 0 forks whose
    clone fails, the breakdown is not all-zero: `project_value` was computed
    from the metadata before the clone attempt and equals 2. -/
theorem C2_counterexample_project_value :
    (analyze_repo_clone_failed none none 1 0).critical_flags =
      ["Clone failed - manual inspection required"] ∧
    (analyze_repo_clone_failed none none 1 0).score_breakdown.project_value = 2 ∧
    (2 : ℤ) ≠ 0 := by
  refine ⟨rfl, by decide, by decide⟩

/-- C2 (amended): when the clone fails, the six filesystem-dependent
    sub-scores stay 0, `project_value` equals `min(100, stars*2 + forks*5)`
    (so the breakdown is all-zero exactly when that is 0), and the critical
    flag "Clone failed - manual inspection required" is present. -/
theorem C2_clone_failed_breakdown (language description : Option String)
    (stars forks : ℕ) :
    (analyze_repo_clone_failed language description stars forks).score_breakdown.code_structure = 0 ∧
    (analyze_repo_clone_failed language description stars forks).score_breakdown.testing_ci = 0 ∧
    (analyze_repo_clone_failed language description stars forks).score_breakdown.readme = 0 ∧
    (analyze_repo_clone_failed language description stars forks).score_breakdown.deployability = 0 ∧
    (analyze_repo_clone_failed language description stars forks).score_breakdown.complexity = 0 ∧
    (analyze_repo_clone_failed language description stars forks).score_breakdown.security = 0 ∧
    (analyze_repo_clone_failed language description stars forks).score_breakdown.project_value =
      min 100 ((stars : ℤ) * 2 + (forks : ℤ) * 5) ∧
    "Clone failed - manual inspection required" ∈
      (analyze_repo_clone_failed language description stars forks).critical_flags := by
  simp [analyze_repo_clone_failed]

/- ## Claims about the empty-profile paths of `scoring.py` -/

/-- C5 (counterexample): on the empty repository list, `compute_role_fit`
    returns score 0 for every role but with an *empty* fit label, not
    "Low Fit": the early return at scoring.py line 90 hands back the `roles`
    dictionary initialised with `fit_label = ""`. -/
theorem C5_counterexample_empty_fit_labels :
    compute_role_fit [] = Except.ok ⟨⟨0, ""⟩, ⟨0, ""⟩, ⟨0, ""⟩⟩ ∧
    compute_role_fit [] ≠
      Except.ok ⟨⟨0, "Low Fit"⟩, ⟨0, "Low Fit"⟩, ⟨0, "Low Fit"⟩⟩ := by
  refine ⟨rfl, fun h => ?_⟩
  rw [show compute_role_fit [] = Except.ok ⟨⟨0, ""⟩, ⟨0, ""⟩, ⟨0, ""⟩⟩ from rfl] at h
  simp at h

/-- C5 (amended): the empty repository list yields hiring readiness score 0
    with the "Not Ready" tier (rendered "🔴 Not Ready") and its fixed tier
    label, and role-fit score 0 for all three roles with empty-string fit
    labels (`get_fit_label` is never applied on this path). -/
theorem C5_empty_profile_defaults :
    compute_hiring_readiness [] =
      ⟨0, "🔴 Not Ready", "Foundational gaps; focus on fundamentals first"⟩ ∧
    compute_role_fit [] = Except.ok ⟨⟨0, ""⟩, ⟨0, ""⟩, ⟨0, ""⟩⟩ :=
  ⟨rfl, rfl⟩

/- ## Claims about `compute_hiring_readiness` and `get_fit_label` -/

theorem foldl_flag_deduction (l : List RepoAnalysis) (a : ℤ) :
    l.foldl (fun acc r => if !r.critical_flags.isEmpty then acc - 20 else acc) a =
      a - 20 * (l.countP (fun r => !r.critical_flags.isEmpty) : ℤ) := by
  induction l generalizing a with
  | nil => simp
  | cons r t ih =>
    rw [List.foldl_cons, ih, List.countP_cons]
    by_cases h : r.critical_flags.isEmpty
    · simp [h]
    · simp [h]
      omega

/-- C7: `security_baseline` is 100 minus 20 per repository whose
    `critical_flags` list is non-empty, floored at 0 — per repository, not
    per flag: one repository with three flags deducts 20 (same as with one
    flag), flags spread over two repositories deduct 40. -/
theorem C7_security_baseline_per_repo (repos : List RepoAnalysis) :
    security_baseline repos =
      max 0 (100 - 20 * (repos.countP (fun r => !r.critical_flags.isEmpty) : ℤ)) ∧
    security_baseline [flaggedRepo ["f1", "f2", "f3"]] = 80 ∧
    security_baseline [flaggedRepo ["f1"]] = 80 ∧
    security_baseline [flaggedRepo ["f1"], flaggedRepo ["f2"]] = 60 := by
  refine ⟨?_, by decide, by decide, by decide⟩
  rw [security_baseline, foldl_flag_deduction]

/-- C8: the role-fit label is "High Fit" iff the score exceeds 80,
    "Moderate Fit" iff it is in (50, 80], and "Low Fit" iff it is at most
    50; both boundaries are strict-greater, so 81 is "High Fit" while 80 is
    "Moderate Fit". -/
theorem C8_fit_label_boundaries (s : ℤ) :
    (get_fit_label s = "High Fit" ↔ 80 < s) ∧
    (get_fit_label s = "Moderate Fit" ↔ 50 < s ∧ s ≤ 80) ∧
    (get_fit_label s = "Low Fit" ↔ s ≤ 50) ∧
    get_fit_label 81 = "High Fit" ∧ get_fit_label 80 = "Moderate Fit" := by
  refine ⟨?_, ?_, ?_, by decide, by decide⟩ <;>
  · rw [get_fit_label]
    split_ifs with h1 h2 <;> simp <;> omega

/- ## Claims about `compute_role_fit` totality on missing descriptions -/

theorem keyword_hit_none (kws : List String) :
    keyword_hit kws none = Except.ok false := rfl

theorem keyword_hit_isOk (kws : List String) (d : Option String) :
    ∃ b, keyword_hit kws d = Except.ok b := by
  cases d with
  | none => exact ⟨false, rfl⟩
  | some s =>
    by_cases h : pyTruthy (some s)
    · exact ⟨_, by rw [keyword_hit, if_pos h]; rfl⟩
    · exact ⟨false, by rw [keyword_hit, if_neg h]; rfl⟩

theorem ml_contrib_isOk (r : RepoAnalysis) : ∃ v, ml_contrib r = Except.ok v := by
  obtain ⟨b, hb⟩ := keyword_hit_isOk ml_keywords r.description
  exact ⟨_, by rw [ml_contrib, hb]; rfl⟩

theorem be_contrib_isOk (r : RepoAnalysis) : ∃ v, be_contrib r = Except.ok v := by
  obtain ⟨b, hb⟩ := keyword_hit_isOk be_keywords r.description
  exact ⟨_, by rw [be_contrib, hb]; rfl⟩

theorem sre_contrib_isOk (r : RepoAnalysis) : ∃ v, sre_contrib r = Except.ok v := by
  obtain ⟨b, hb⟩ := keyword_hit_isOk sre_keywords r.description
  exact ⟨_, by rw [sre_contrib, hb]; rfl⟩

theorem foldlM_contrib_isOk {α : Type} [Add α]
    (f : RepoAnalysis → Except String α)
    (hf : ∀ r, ∃ v, f r = Except.ok v) (l : List RepoAnalysis) (a : α) :
    ∃ v, (l.foldlM (fun acc r => do pure (acc + (← f r))) a) = Except.ok v := by
  induction l generalizing a with
  | nil => exact ⟨a, rfl⟩
  | cons r t ih =>
    obtain ⟨v, hv⟩ := hf r
    obtain ⟨w, hw⟩ := ih (a + v)
    exact ⟨w, by rw [List.foldlM_cons, hv]; exact hw⟩

/-- C10: `compute_role_fit` is total on repositories with a missing (`None`)
    description — the generator filter `if r["description"]` short-circuits
    before `.lower()` is evaluated — and for every such repository the
    description-keyword bonuses (+15 ML, +15 backend, +20 SRE) contribute
    nothing: its contributions reduce to the language bonus (ML), the
    language bonus plus `code_structure/10` (backend), and `deployability/2`
    (SRE). -/
theorem C10_role_fit_total_on_none_description (repos : List RepoAnalysis)
    (r : RepoAnalysis) (_hmem : r ∈ repos) (hdesc : r.description = none) :
    (∃ out, compute_role_fit repos = Except.ok out) ∧
    ml_contrib r = Except.ok
      (if r.language == some "Jupyter Notebook" || r.language == some "Python"
        then 10 else 0) ∧
    be_contrib r = Except.ok
      ((if lang_in r.language backend_langs then 10 else 0) +
        (r.score_breakdown.code_structure : ℚ) / 10) ∧
    sre_contrib r = Except.ok ((r.score_breakdown.deployability : ℚ) / 2) := by
  refine ⟨?_, ?_, ?_, ?_⟩
  · by_cases hempty : repos.isEmpty
    · exact ⟨_, by rw [compute_role_fit, if_pos hempty]⟩
    · obtain ⟨mv, hmv⟩ := foldlM_contrib_isOk ml_contrib ml_contrib_isOk repos 0
      obtain ⟨bv, hbv⟩ := foldlM_contrib_isOk be_contrib be_contrib_isOk repos 0
      obtain ⟨sv, hsv⟩ := foldlM_contrib_isOk sre_contrib sre_contrib_isOk repos 0
      exact ⟨_, by rw [compute_role_fit, if_neg hempty]; rw [hmv, hbv, hsv]; rfl⟩
  · rw [ml_contrib, hdesc, keyword_hit_none]
    simp
  · rw [be_contrib, hdesc, keyword_hit_none]
    simp
  · rw [sre_contrib, hdesc, keyword_hit_none]
    simp

/-- C10 (witness): a single Python repository with a `None` description. -/
theorem C10_witness :
    descNoneRepo ∈ [descNoneRepo] ∧ descNoneRepo.description = none ∧
    ((∃ out, compute_role_fit [descNoneRepo] = Except.ok out) ∧
     ml_contrib descNoneRepo = Except.ok
       (if descNoneRepo.language == some "Jupyter Notebook" ||
           descNoneRepo.language == some "Python" then 10 else 0) ∧
     be_contrib descNoneRepo = Except.ok
       ((if lang_in descNoneRepo.language backend_langs then 10 else 0) +
         (descNoneRepo.score_breakdown.code_structure : ℚ) / 10) ∧
     sre_contrib descNoneRepo = Except.ok
       ((descNoneRepo.score_breakdown.deployability : ℚ) / 2)) :=
  ⟨List.mem_singleton.mpr rfl, rfl,
    C10_role_fit_total_on_none_description [descNoneRepo] descNoneRepo
      (List.mem_singleton.mpr rfl) rfl⟩
